import Mathlib

/-!
Verification of the fraud-detection durable-workflow Lambda
(`src/FraudDetection-Lambda/app.py`) and its collaborators
(`src/FraudDetection-Agent/agent.py`) against the natural-language
specification.

The workflow handler, the pure business-logic helpers, the fraud-score
step and the two verification branches are shallowly embedded from the
Python source.  The durable-execution engine itself (step ledger,
callback gateway, parallel coordinator) is an external SDK whose code is
not in the repository; where its behaviour decides a claim it is
modelled from the specification, and each such definition carries a
`Modelled from the spec:` doc comment.

Observable side effects of a handler run (steps executed, fan-outs
launched, callback waiters registered, agent invocations) are recorded
in an explicit trace so that claims about "no step executes" or "a
fan-out of exactly two branches is started" become statements about the
trace.
-/

namespace FraudDetection

/-- A transaction as built by the handler from the inbound event
(`app.py` lines 152-158): id, amount, location, vendor, score. -/
structure Transaction where
  id : Int
  amount : Rat
  location : String
  vendor : String
  score : Int
deriving DecidableEq, Repr

/-- The `body` of a workflow result (`app.py` `_authorize_logic` /
`_fraud_logic` / the trailing 400 response).  The optional
`customerVerificationResult` field is present only when the
`customer_rejection` flag was set. -/
structure ResultBody where
  transaction_id : Int
  amount : Rat
  fraud_score : Int
  result : String
  customerVerificationResult : Option String
deriving DecidableEq, Repr

/-- A workflow result `{statusCode, body}`. -/
structure WorkflowResult where
  statusCode : Int
  body : ResultBody
deriving DecidableEq, Repr

/-- Embeds `_authorize_logic` (`app.py` lines 41-53): a 200 response
with `result = "authorized"`; when `customer_rejection` is true the body
additionally carries `customerVerificationResult = "TransactionApproved"`. -/
def _authorize_logic (tx : Transaction) (customer_rejection : Bool) : WorkflowResult :=
  { statusCode := 200
    body :=
      { transaction_id := tx.id
        amount := tx.amount
        fraud_score := tx.score
        result := "authorized"
        customerVerificationResult :=
          if customer_rejection then some "TransactionApproved" else none } }

/-- Embeds `_fraud_logic` (`app.py` lines 56-68): a 200 response with
`result = "SentToFraudDept"`; when `customer_rejection` is true the body
additionally carries `customerVerificationResult = "TransactionDeclined"`. -/
def _fraud_logic (tx : Transaction) (customer_rejection : Bool) : WorkflowResult :=
  { statusCode := 200
    body :=
      { transaction_id := tx.id
        amount := tx.amount
        fraud_score := tx.score
        result := "SentToFraudDept"
        customerVerificationResult :=
          if customer_rejection then some "TransactionDeclined" else none } }

/-- Outcome of one attempt to call the external scorer
(`client.invoke_agent_runtime` in `check_fraud_score`): either the call
raised (transport error, timeout, any exception — carried as its
message), or it returned a parsed body whose `output.risk_score` field
is `some s` when present and non-null and `none` when missing. -/
inductive ScorerOutcome where
  | failure (msg : String)
  | response (risk_score : Option Int)
deriving DecidableEq, Repr

/-- Embeds the `check_fraud_score` durable step (`app.py` lines 73-109).
Returns the step's result (`Except` models a raised exception) paired
with a flag recording whether the external agent was invoked.
Faithful to the source: a nonzero input score is returned directly
without touching the agent; an unset `AGENT_RUNTIME_ARN` raises
`ValueError`; an exception from the agent call propagates (there is no
`try`/`except` around it); only a successfully parsed response lacking
`output.risk_score` falls back to the score 5. -/
def check_fraud_score (amount : Rat) (location vendor : String) (score : Int)
    (arnSet : Bool) (scorer : ScorerOutcome) : Except String Int × Bool :=
  let _ := amount
  let _ := location
  let _ := vendor
  if score ≠ 0 then
    (.ok score, false)
  else if ¬ arnSet then
    (.error "AGENT_RUNTIME_ARN environment variable is not set", false)
  else
    match scorer with
    | .failure msg => (.error msg, true)
    | .response none => (.ok 5, true)
    | .response (some rs) => (.ok rs, true)

/-- A timeout duration in seconds; `Duration.from_days` mirrors the
SDK's `Duration.from_days` used in `WaitForCallbackConfig`. -/
def Duration.from_days (d : Nat) : Nat := d * 86400

/-- Resolution of one callback waiter, as seen by the branch code:
the external callback was delivered with a payload, the 1-day timeout
fired, or the wait raised some other exception with message `msg`. -/
inductive WaiterOutcome where
  | delivered (payload : String)
  | timedOut
  | errored (msg : String)
deriving DecidableEq, Repr

/-- Modelled from the spec: the Callback Gateway (spec section 4.4) is
part of the durable-execution SDK, whose code is not in the repository.
A `Delivered` resolution returns the payload to the branch; a `TimedOut`
resolution is surfaced to the branch as a raised exception whose message
contains the word "timeout" (the branch code's `except` clause detects
timeouts by string-matching, per the spec's design note on
exception-based timeout detection); any other wait failure surfaces as
an exception with its own message. -/
def wait_for_callback : WaiterOutcome → Except String String
  | .delivered payload => .ok payload
  | .timedOut => .error "callback timeout"
  | .errored msg => .error msg

/-- `strContainsAux needle l` is true when `needle` occurs as a
contiguous sublist of `l`; used to embed Python's substring test
`"timeout" in s`. -/
def strContainsAux (needle : List Char) : List Char → Bool
  | [] => needle.isEmpty
  | c :: rest => needle.isPrefixOf (c :: rest) || strContainsAux needle rest

/-- `strContains hay needle`: Python's `needle in hay`. -/
def strContains (hay needle : String) : Bool :=
  strContainsAux needle.toList hay.toList

/-- Python's `str.lower()` for the ASCII exception messages involved,
defined over the character list so that concrete instances evaluate. -/
def pyToLower (s : String) : String :=
  ⟨s.data.map Char.toLower⟩

/-- Per-branch result dict returned by `email_verification` /
`sms_verification`: `{"success": ..., "channel": ..., "result": ...,
"error": ...}` with the absent keys as `none`. -/
structure BranchResult where
  success : Bool
  channel : String
  result : Option String
  error : Option String
deriving DecidableEq, Repr

/-- Embeds the shared shape of `email_verification` and
`sms_verification` (`app.py` lines 190-230): wait for the callback; on a
normal return produce `{"success": True, "channel": channel, "result":
result}`; on an exception whose lowercased message contains "timeout"
produce `{"success": False, "channel": channel, "error": "timeout"}`;
re-raise any other exception. -/
def branch_verification (channel : String) (o : WaiterOutcome) :
    Except String BranchResult :=
  match wait_for_callback o with
  | .ok payload => .ok ⟨true, channel, some payload, none⟩
  | .error e =>
      if strContains (pyToLower e) "timeout" then
        .ok ⟨false, channel, none, some "timeout"⟩
      else
        .error e

/-- The email branch passed to `context.parallel` (`app.py` lines 190-209). -/
def email_verification (o : WaiterOutcome) : Except String BranchResult :=
  branch_verification "email" o

/-- The SMS branch passed to `context.parallel` (`app.py` lines 211-230). -/
def sms_verification (o : WaiterOutcome) : Except String BranchResult :=
  branch_verification "sms" o

/-- One observable action of a handler run, recorded in execution
order: a durable step completing under its name, the agent being
invoked inside `check_fraud_score`, a `context.parallel` fan-out being
launched (with branch channels, `max_concurrency`, `min_successful`
and `tolerated_failure_count`), or a callback waiter being registered
with its timeout in seconds. -/
inductive TraceEvent where
  | step (stepName : String)
  | agentInvoke
  | parallelStart (parName : String) (channels : List String)
      (maxConcurrency minSuccessful toleratedFailures : Nat)
  | waiterRegistered (channel : String) (timeoutSeconds : Nat)
deriving DecidableEq, Repr

/-- The external world one handler run can observe: whether
`AGENT_RUNTIME_ARN` is set, the scorer's behaviour, and the resolution
of each verification branch's callback waiter. -/
structure Env where
  arnSet : Bool
  scorer : ScorerOutcome
  emailOutcome : WaiterOutcome
  smsOutcome : WaiterOutcome
deriving DecidableEq, Repr

/-- The inbound Lambda event: an optional `callbackId` plus the
optional transaction fields.  `none` models an absent key (Python's
`event["k"]` raises `KeyError` on an absent key; `event.get("score",
0)` defaults to 0). -/
structure Event where
  callbackId : Option String
  id : Option Int
  amount : Option Rat
  location : Option String
  vendor : Option String
  score : Option Int
deriving DecidableEq, Repr

/-- What the handler returns: a callback event is echoed unchanged,
otherwise a workflow result is produced. -/
inductive HandlerReturn where
  | callbackEcho (e : Event)
  | result (r : WorkflowResult)
deriving DecidableEq, Repr

/-- Modelled from the spec: the Parallel Branch Coordinator (spec
section 4.5) lives in the SDK, whose code is not in the repository.  A
branch counts toward `success_count` when its function returns a value
(including a caught-timeout `{"success": False, ...}` dict) and toward
the failure count when it raises. -/
def branchSucceeds {ε α : Type} : Except ε α → Bool
  | .ok _ => true
  | .error _ => false

/-- `verified.success_count` for the two-branch `human-verification`
fan-out, under the spec-modelled coordinator [[branchSucceeds]]. -/
def successCount (env : Env) : Nat :=
  (if branchSucceeds (email_verification env.emailOutcome) then 1 else 0) +
  (if branchSucceeds (sms_verification env.smsOutcome) then 1 else 0)

/-- Embeds the `advance_transaction` durable step (`app.py` lines
247-254): authorize with `customer_rejection=True` when
`verified.success_count > 0`, else escalate with
`customer_rejection=True`. -/
def advance_transaction (tx : Transaction) (success_count : Nat) : WorkflowResult :=
  if success_count > 0 then _authorize_logic tx true else _fraud_logic tx true

/-- Embeds the `handler` durable execution (`app.py` lines 142-266),
returning the handler's outcome (`Except` models an uncaught exception,
with `KeyError: k` for a missing event key) paired with the trace of
observable actions.  Structure follows the source: callback echo;
transaction construction (KeyError on a missing field, in access
order); the `fraudCheck` step; the three score branches; and the
trailing 400 `Unknown` response. -/
def handler (event : Event) (env : Env) :
    Except String HandlerReturn × List TraceEvent :=
  if event.callbackId.isSome then
    (.ok (.callbackEcho event), [])
  else
    match event.id with
    | none => (.error "KeyError: id", [])
    | some txId =>
      match event.amount with
      | none => (.error "KeyError: amount", [])
      | some amount =>
        match event.location with
        | none => (.error "KeyError: location", [])
        | some location =>
          match event.vendor with
          | none => (.error "KeyError: vendor", [])
          | some vendor =>
            let score0 := event.score.getD 0
            match check_fraud_score amount location vendor score0
                env.arnSet env.scorer with
            | (.error e, invoked) =>
                (.error e, if invoked then [.agentInvoke] else [])
            | (.ok s, invoked) =>
              let tx : Transaction := ⟨txId, amount, location, vendor, s⟩
              let tr0 : List TraceEvent :=
                (if invoked then [.agentInvoke] else []) ++ [.step "fraudCheck"]
              if s < 3 then
                (.ok (.result (_authorize_logic tx false)), tr0 ++ [.step "Authorize"])
              else if s ≥ 5 then
                (.ok (.result (_fraud_logic tx false)), tr0 ++ [.step "sendToFraud"])
              else if 2 < s ∧ s < 5 then
                (.ok (.result (advance_transaction tx (successCount env))),
                 tr0 ++
                   [.step "suspendTransaction",
                    .parallelStart "human-verification" ["email", "sms"] 2 1 1,
                    .waiterRegistered "email" (Duration.from_days 1),
                    .step "SendVerificationEmail",
                    .waiterRegistered "sms" (Duration.from_days 1),
                    .step "SendVerificationSMS",
                    .step "advanceTransaction"])
              else
                (.ok (.result
                   { statusCode := 400
                     body :=
                       { transaction_id := txId
                         amount := amount
                         fraud_score := s
                         result := "Unknown"
                         customerVerificationResult := none } }), tr0)

/-- Embeds the `amount` validation of the agent's `/invocations`
endpoint (`src/FraudDetection-Agent/agent.py` lines 49-57): a missing
`amount` key, or a falsy (zero) amount, raises an HTTP 400 error; any
other numeric amount — including a negative one — passes validation. -/
def agentValidateAmount (amount : Option Rat) : Except Nat Unit :=
  match amount with
  | none => .error 400
  | some a => if a = 0 then .error 400 else .ok ()

/-- Modelled from the spec: a Step Ledger record outcome (spec section
3, `StepRecord.outcome`); the ledger itself is SDK state not present in
the repository. -/
inductive StepOutcome (α : Type) where
  | success (v : α)
  | failure (e : String)
deriving DecidableEq, Repr

/-- Modelled from the spec: the Step Ledger (spec section 4.2), an
append-only association of step names to outcomes within one run. -/
abbrev Ledger (α : Type) := List (String × StepOutcome α)

/-- Ledger lookup: the spec's `lookup(stepName) -> outcome|absent`. -/
def Ledger.lookup {α : Type} (l : Ledger α) (stepName : String) :
    Option (StepOutcome α) :=
  (List.find? (fun p => p.1 == stepName) l).map Prod.snd

/-- Modelled from the spec: the Step Executor (spec section 4.3), whose
code is the SDK's `context.step`.  If the step name already has a
memoized `success` in the ledger, its value is returned without calling
`fn` (replay short-circuit); otherwise `fn` runs and its outcome is
appended.  Returns the result, the new ledger, and whether `fn` was
called. -/
def stepExecute {α : Type} (l : Ledger α) (stepName : String)
    (fn : Unit → Except String α) : Except String α × Ledger α × Bool :=
  match Ledger.lookup l stepName with
  | some (.success v) => (.ok v, l, false)
  | _ =>
    match fn () with
    | .ok v => (.ok v, List.append l [(stepName, .success v)], true)
    | .error e => (.error e, List.append l [(stepName, .failure e)], true)

/-- Discriminator: is this trace event the launch of a parallel fan-out? -/
def TraceEvent.isParallelStart : TraceEvent → Bool
  | .parallelStart .. => true
  | _ => false

/-- Discriminator: is this trace event the registration of a callback waiter? -/
def TraceEvent.isWaiterRegistered : TraceEvent → Bool
  | .waiterRegistered .. => true
  | _ => false

/-- The trace emitted by the `fraudCheck` step: an agent invocation when
the scorer was consulted, then the completed step record. -/
def fraudCheckTrace (invoked : Bool) : List TraceEvent :=
  (if invoked then [.agentInvoke] else []) ++ [.step "fraudCheck"]

/-- The trace emitted by the medium-risk verification path after the
`fraudCheck` step: the suspend step, the two-branch fan-out launch, the
two waiter registrations with their notification steps, and the final
decision step. -/
def verificationTrace : List TraceEvent :=
  [.step "suspendTransaction",
   .parallelStart "human-verification" ["email", "sms"] 2 1 1,
   .waiterRegistered "email" (Duration.from_days 1),
   .step "SendVerificationEmail",
   .waiterRegistered "sms" (Duration.from_days 1),
   .step "SendVerificationSMS",
   .step "advanceTransaction"]

/-- Path lemma: with the event well-formed and the `fraudCheck` step
resolving to a score `s < 3`, the handler authorizes directly. -/
theorem handler_low_eq (ev : Event) (env : Env) (i : Int) (a : Rat) (l v : String)
    (s : Int) (inv : Bool) (hcb : ev.callbackId = none) (hid : ev.id = some i)
    (ham : ev.amount = some a) (hloc : ev.location = some l) (hven : ev.vendor = some v)
    (hchk : check_fraud_score a l v (ev.score.getD 0) env.arnSet env.scorer = (Except.ok s, inv))
    (hs : s < 3) :
    handler ev env =
      (Except.ok (.result (_authorize_logic ⟨i, a, l, v, s⟩ false)),
       fraudCheckTrace inv ++ [.step "Authorize"]) := by
  unfold handler fraudCheckTrace
  rw [hcb, hid, ham, hloc, hven]
  simp only [Option.isSome_none, Bool.false_eq_true, if_false]
  rw [hchk]
  simp only []
  rw [if_pos hs]

/-- Path lemma: with the event well-formed and the `fraudCheck` step
resolving to a score `s ≥ 5`, the handler escalates directly. -/
theorem handler_high_eq (ev : Event) (env : Env) (i : Int) (a : Rat) (l v : String)
    (s : Int) (inv : Bool) (hcb : ev.callbackId = none) (hid : ev.id = some i)
    (ham : ev.amount = some a) (hloc : ev.location = some l) (hven : ev.vendor = some v)
    (hchk : check_fraud_score a l v (ev.score.getD 0) env.arnSet env.scorer = (Except.ok s, inv))
    (hs : 5 ≤ s) :
    handler ev env =
      (Except.ok (.result (_fraud_logic ⟨i, a, l, v, s⟩ false)),
       fraudCheckTrace inv ++ [.step "sendToFraud"]) := by
  unfold handler fraudCheckTrace
  rw [hcb, hid, ham, hloc, hven]
  simp only [Option.isSome_none, Bool.false_eq_true, if_false]
  rw [hchk]
  simp only []
  rw [if_neg (by omega), if_pos hs]

/-- Path lemma: with the event well-formed and the `fraudCheck` step
resolving to a score with `3 ≤ s < 5`, the handler suspends, fans out
the two verification branches, and returns the `advanceTransaction`
step's decision on the fan-out's success count. -/
theorem handler_mid_eq (ev : Event) (env : Env) (i : Int) (a : Rat) (l v : String)
    (s : Int) (inv : Bool) (hcb : ev.callbackId = none) (hid : ev.id = some i)
    (ham : ev.amount = some a) (hloc : ev.location = some l) (hven : ev.vendor = some v)
    (hchk : check_fraud_score a l v (ev.score.getD 0) env.arnSet env.scorer = (Except.ok s, inv))
    (h3 : 3 ≤ s) (h5 : s < 5) :
    handler ev env =
      (Except.ok (.result (advance_transaction ⟨i, a, l, v, s⟩ (successCount env))),
       fraudCheckTrace inv ++ verificationTrace) := by
  unfold handler fraudCheckTrace verificationTrace
  rw [hcb, hid, ham, hloc, hven]
  simp only [Option.isSome_none, Bool.false_eq_true, if_false]
  rw [hchk]
  simp only []
  rw [if_neg (by omega), if_neg (by omega), if_pos (by omega : 2 < s ∧ s < 5)]

/-- C9: an inbound event containing a `callbackId` key is returned
unchanged and no transaction processing happens: the handler reads no
transaction fields, executes no step, and starts no fan-out (empty
trace). -/
theorem claim9_callback_echo (ev : Event) (env : Env) (cb : String)
    (hcb : ev.callbackId = some cb) :
    handler ev env = (Except.ok (.callbackEcho ev), []) := by
  unfold handler
  rw [hcb]
  simp only [Option.isSome_some, if_true]

/-- Witness for C9 at a concrete callback event. -/
theorem claim9_callback_echo_witness :
    handler ⟨some "cb-123", none, none, none, none, none⟩
        ⟨true, .response (some 1), .delivered "ok", .delivered "ok"⟩ =
      (Except.ok (.callbackEcho ⟨some "cb-123", none, none, none, none, none⟩), []) :=
  claim9_callback_echo _ _ "cb-123" rfl

/-- C1: a transaction whose scored value is an integer `s < 3` yields a
200 result with `body.result = "authorized"` and `body.fraud_score = s`,
with no parallel branch started, no callback waiter registered, and no
suspend step executed. -/
theorem claim1_low_score_authorized (ev : Event) (env : Env) (i : Int) (a : Rat)
    (l v : String) (s : Int) (inv : Bool)
    (hcb : ev.callbackId = none) (hid : ev.id = some i) (ham : ev.amount = some a)
    (hloc : ev.location = some l) (hven : ev.vendor = some v)
    (hchk : check_fraud_score a l v (ev.score.getD 0) env.arnSet env.scorer = (Except.ok s, inv))
    (hs : s < 3) :
    handler ev env =
      (Except.ok (.result
         { statusCode := 200
           body := { transaction_id := i, amount := a, fraud_score := s,
                     result := "authorized", customerVerificationResult := none } }),
       fraudCheckTrace inv ++ [.step "Authorize"]) ∧
    (handler ev env).2.any TraceEvent.isParallelStart = false ∧
    (handler ev env).2.any TraceEvent.isWaiterRegistered = false ∧
    TraceEvent.step "suspendTransaction" ∉ (handler ev env).2 := by
  have h := handler_low_eq ev env i a l v s inv hcb hid ham hloc hven hchk hs
  refine ⟨?_, ?_, ?_, ?_⟩
  · rw [h]
    simp [_authorize_logic]
  · rw [h]; cases inv <;> simp [fraudCheckTrace, TraceEvent.isParallelStart]
  · rw [h]; cases inv <;> simp [fraudCheckTrace, TraceEvent.isWaiterRegistered]
  · rw [h]; cases inv <;> simp [fraudCheckTrace]

/-- Witness for C1: the spec's Portland scenario (scorer returns 1). -/
theorem claim1_low_score_authorized_witness :
    handler ⟨none, some 7, some 45, some "Portland", some "Coffee Shop", some 0⟩
        ⟨true, .response (some 1), .delivered "ok", .delivered "ok"⟩ =
      (Except.ok (.result
         { statusCode := 200
           body := { transaction_id := 7, amount := 45, fraud_score := 1,
                     result := "authorized", customerVerificationResult := none } }),
       [.agentInvoke, .step "fraudCheck", .step "Authorize"]) :=
  (claim1_low_score_authorized
    ⟨none, some 7, some 45, some "Portland", some "Coffee Shop", some 0⟩
    ⟨true, .response (some 1), .delivered "ok", .delivered "ok"⟩
    7 45 "Portland" "Coffee Shop" 1 true
    rfl rfl rfl rfl rfl rfl (by decide)).1

/-- C2: a transaction whose scored value is an integer `s ≥ 5` yields a
200 result with `body.result = "SentToFraudDept"` and `body.fraud_score
= s`, with no parallel branch started, no callback waiter registered,
and no suspend step executed. -/
theorem claim2_high_score_escalated (ev : Event) (env : Env) (i : Int) (a : Rat)
    (l v : String) (s : Int) (inv : Bool)
    (hcb : ev.callbackId = none) (hid : ev.id = some i) (ham : ev.amount = some a)
    (hloc : ev.location = some l) (hven : ev.vendor = some v)
    (hchk : check_fraud_score a l v (ev.score.getD 0) env.arnSet env.scorer = (Except.ok s, inv))
    (hs : 5 ≤ s) :
    handler ev env =
      (Except.ok (.result
         { statusCode := 200
           body := { transaction_id := i, amount := a, fraud_score := s,
                     result := "SentToFraudDept", customerVerificationResult := none } }),
       fraudCheckTrace inv ++ [.step "sendToFraud"]) ∧
    (handler ev env).2.any TraceEvent.isParallelStart = false ∧
    (handler ev env).2.any TraceEvent.isWaiterRegistered = false ∧
    TraceEvent.step "suspendTransaction" ∉ (handler ev env).2 := by
  have h := handler_high_eq ev env i a l v s inv hcb hid ham hloc hven hchk hs
  refine ⟨?_, ?_, ?_, ?_⟩
  · rw [h]
    simp [_fraud_logic]
  · rw [h]; cases inv <;> simp [fraudCheckTrace, TraceEvent.isParallelStart]
  · rw [h]; cases inv <;> simp [fraudCheckTrace, TraceEvent.isWaiterRegistered]
  · rw [h]; cases inv <;> simp [fraudCheckTrace]

/-- Witness for C2: the spec's Los Angeles scenario (scorer returns 5). -/
theorem claim2_high_score_escalated_witness :
    handler ⟨none, some 3, some 6500, some "Los Angeles", some "Electronics Store", some 0⟩
        ⟨true, .response (some 5), .delivered "ok", .delivered "ok"⟩ =
      (Except.ok (.result
         { statusCode := 200
           body := { transaction_id := 3, amount := 6500, fraud_score := 5,
                     result := "SentToFraudDept", customerVerificationResult := none } }),
       [.agentInvoke, .step "fraudCheck", .step "sendToFraud"]) :=
  (claim2_high_score_escalated
    ⟨none, some 3, some 6500, some "Los Angeles", some "Electronics Store", some 0⟩
    ⟨true, .response (some 5), .delivered "ok", .delivered "ok"⟩
    3 6500 "Los Angeles" "Electronics Store" 5 true
    rfl rfl rfl rfl rfl rfl (by decide)).1

/-- C3: a transaction whose scored value is 3 or 4 first executes the
suspend step and then launches the `human-verification` fan-out of
exactly the two branches email and SMS, each registering a callback
waiter with a 1-day timeout (86400 s) and sending its notification as a
retried step, under `min_successful = 1`, `tolerated_failure_count = 1`,
`max_concurrency = 2`; the trace lists these actions in execution
order. -/
theorem claim3_mid_score_suspend_and_fanout (ev : Event) (env : Env) (i : Int)
    (a : Rat) (l v : String) (s : Int) (inv : Bool)
    (hcb : ev.callbackId = none) (hid : ev.id = some i) (ham : ev.amount = some a)
    (hloc : ev.location = some l) (hven : ev.vendor = some v)
    (hchk : check_fraud_score a l v (ev.score.getD 0) env.arnSet env.scorer = (Except.ok s, inv))
    (hs : s = 3 ∨ s = 4) :
    handler ev env =
      (Except.ok (.result (advance_transaction ⟨i, a, l, v, s⟩ (successCount env))),
       fraudCheckTrace inv ++
         [.step "suspendTransaction",
          .parallelStart "human-verification" ["email", "sms"] 2 1 1,
          .waiterRegistered "email" (Duration.from_days 1),
          .step "SendVerificationEmail",
          .waiterRegistered "sms" (Duration.from_days 1),
          .step "SendVerificationSMS",
          .step "advanceTransaction"]) := by
  have h3 : 3 ≤ s := by rcases hs with rfl | rfl <;> decide
  have h5 : s < 5 := by rcases hs with rfl | rfl <;> decide
  exact handler_mid_eq ev env i a l v s inv hcb hid ham hloc hven hchk h3 h5

/-- Witness for C3: the spec's Seattle scenario (scorer returns 4,
email delivered, SMS times out). -/
theorem claim3_mid_score_suspend_and_fanout_witness :
    handler ⟨none, some 12, some 1200, some "Seattle", some "Online Gaming Store", some 0⟩
        ⟨true, .response (some 4), .delivered "approved", .timedOut⟩ =
      (Except.ok (.result
         { statusCode := 200
           body := { transaction_id := 12, amount := 1200, fraud_score := 4,
                     result := "authorized",
                     customerVerificationResult := some "TransactionApproved" } }),
       [.agentInvoke, .step "fraudCheck",
        .step "suspendTransaction",
        .parallelStart "human-verification" ["email", "sms"] 2 1 1,
        .waiterRegistered "email" 86400,
        .step "SendVerificationEmail",
        .waiterRegistered "sms" 86400,
        .step "SendVerificationSMS",
        .step "advanceTransaction"]) := by
  have h := claim3_mid_score_suspend_and_fanout
    ⟨none, some 12, some 1200, some "Seattle", some "Online Gaming Store", some 0⟩
    ⟨true, .response (some 4), .delivered "approved", .timedOut⟩
    12 1200 "Seattle" "Online Gaming Store" 4 true
    rfl rfl rfl rfl rfl rfl (Or.inr rfl)
  exact h

/-- C4: the final decision of the verification path: given the resolved
fan-out's `success_count`, the `advance_transaction` step returns a 200
result that is `authorized` with `customerVerificationResult =
"TransactionApproved"` when `success_count > 0` and `SentToFraudDept`
with `customerVerificationResult = "TransactionDeclined"` otherwise;
the handler executes this decision as the named step
`advanceTransaction` and returns its value; and (Step Executor modelled
from the spec) a named step with a memoized success in the ledger is
returned without re-evaluating its function on replay. -/
theorem claim4_final_decision_step
    (tx : Transaction) (sc : Nat) (led : Ledger WorkflowResult)
    (fn : Unit → Except String WorkflowResult) (r : WorkflowResult)
    (ev : Event) (env : Env) (i : Int) (a : Rat) (l v : String) (s : Int) (inv : Bool)
    (hcb : ev.callbackId = none) (hid : ev.id = some i) (ham : ev.amount = some a)
    (hloc : ev.location = some l) (hven : ev.vendor = some v)
    (hchk : check_fraud_score a l v (ev.score.getD 0) env.arnSet env.scorer = (Except.ok s, inv))
    (h3 : 3 ≤ s) (h5 : s < 5)
    (hled : Ledger.lookup led "advanceTransaction" = some (.success r)) :
    (0 < sc →
      advance_transaction tx sc =
        { statusCode := 200
          body := { transaction_id := tx.id, amount := tx.amount, fraud_score := tx.score,
                    result := "authorized",
                    customerVerificationResult := some "TransactionApproved" } }) ∧
    (advance_transaction tx 0 =
        { statusCode := 200
          body := { transaction_id := tx.id, amount := tx.amount, fraud_score := tx.score,
                    result := "SentToFraudDept",
                    customerVerificationResult := some "TransactionDeclined" } }) ∧
    ((handler ev env).1 =
        Except.ok (.result (advance_transaction ⟨i, a, l, v, s⟩ (successCount env))) ∧
      TraceEvent.step "advanceTransaction" ∈ (handler ev env).2) ∧
    stepExecute led "advanceTransaction" fn = (Except.ok r, led, false) := by
  have hmid := handler_mid_eq ev env i a l v s inv hcb hid ham hloc hven hchk h3 h5
  refine ⟨?_, ?_, ⟨?_, ?_⟩, ?_⟩
  · intro hsc
    unfold advance_transaction _authorize_logic
    rw [if_pos hsc]
    simp
  · unfold advance_transaction _fraud_logic
    simp
  · rw [hmid]
  · rw [hmid]
    cases inv <;> simp [fraudCheckTrace, verificationTrace]
  · unfold stepExecute
    rw [hled]

/-- The memoized decision value used by the C4 witness. -/
def approvedDecision : WorkflowResult :=
  { statusCode := 200
    body := { transaction_id := 12, amount := 1200, fraud_score := 4,
              result := "authorized",
              customerVerificationResult := some "TransactionApproved" } }

/-- A one-record ledger holding a memoized `advanceTransaction` success,
used by the C4 witness. -/
def advanceLedger : Ledger WorkflowResult :=
  [("advanceTransaction", .success approvedDecision)]

/-- Witness for C4 at concrete inputs: both decision branches and a
replayed memoized step that does not re-evaluate its function. -/
theorem claim4_final_decision_step_witness :
    advance_transaction ⟨12, 1200, "Seattle", "Online Gaming Store", 4⟩ 1 =
      approvedDecision ∧
    advance_transaction ⟨12, 1200, "Seattle", "Online Gaming Store", 4⟩ 0 =
      { statusCode := 200
        body := { transaction_id := 12, amount := 1200, fraud_score := 4,
                  result := "SentToFraudDept",
                  customerVerificationResult := some "TransactionDeclined" } } ∧
    stepExecute advanceLedger "advanceTransaction" (fun _ => Except.error "not re-evaluated") =
      (Except.ok approvedDecision, advanceLedger, false) := by
  have h := claim4_final_decision_step
    ⟨12, 1200, "Seattle", "Online Gaming Store", 4⟩ 1
    advanceLedger
    (fun _ => Except.error "not re-evaluated")
    approvedDecision
    ⟨none, some 12, some 1200, some "Seattle", some "Online Gaming Store", some 0⟩
    ⟨true, .response (some 4), .delivered "approved", .timedOut⟩
    12 1200 "Seattle" "Online Gaming Store" 4 true
    rfl rfl rfl rfl rfl rfl (by decide) (by decide) rfl
  exact ⟨h.1 (by decide), h.2.1, h.2.2.2⟩

/-- The `statusCode` of a handler outcome, when it is a workflow result. -/
def handlerStatus? : Except String HandlerReturn → Option Int
  | .ok (.result r) => some r.statusCode
  | _ => none

/-- The `body.result` string of a handler outcome, when it is a
workflow result. -/
def handlerResult? : Except String HandlerReturn → Option String
  | .ok (.result r) => some r.body.result
  | _ => none

/-- C10: for every integer score the handler returns through exactly one
of the three defined paths — the three score ranges `s < 3`, `s ≥ 5` and
`3 ≤ s < 5` are pairwise disjoint and cover the integers — always with
statusCode 200, and the trailing 400 `Unknown` response is unreachable. -/
theorem claim10_unknown_unreachable (ev : Event) (env : Env) (i : Int) (a : Rat)
    (l v : String) (s : Int) (inv : Bool)
    (hcb : ev.callbackId = none) (hid : ev.id = some i) (ham : ev.amount = some a)
    (hloc : ev.location = some l) (hven : ev.vendor = some v)
    (hchk : check_fraud_score a l v (ev.score.getD 0) env.arnSet env.scorer = (Except.ok s, inv)) :
    handlerStatus? (handler ev env).1 = some 200 ∧
    handlerResult? (handler ev env).1 ≠ some "Unknown" ∧
    ((s < 3 ∧ handlerResult? (handler ev env).1 = some "authorized") ∨
     (5 ≤ s ∧ handlerResult? (handler ev env).1 = some "SentToFraudDept") ∨
     (3 ≤ s ∧ s < 5 ∧
       (handlerResult? (handler ev env).1 = some "authorized" ∨
        handlerResult? (handler ev env).1 = some "SentToFraudDept"))) := by
  by_cases hlt : s < 3
  · have h := handler_low_eq ev env i a l v s inv hcb hid ham hloc hven hchk hlt
    rw [h]
    exact ⟨rfl, by simp [handlerResult?, _authorize_logic], Or.inl ⟨hlt, rfl⟩⟩
  · by_cases hge : 5 ≤ s
    · have h := handler_high_eq ev env i a l v s inv hcb hid ham hloc hven hchk hge
      rw [h]
      exact ⟨rfl, by simp [handlerResult?, _fraud_logic], Or.inr (Or.inl ⟨hge, rfl⟩)⟩
    · have h3 : 3 ≤ s := by omega
      have h5 : s < 5 := by omega
      have h := handler_mid_eq ev env i a l v s inv hcb hid ham hloc hven hchk h3 h5
      rw [h]
      by_cases hpos : 0 < successCount env
      · have ha : advance_transaction ⟨i, a, l, v, s⟩ (successCount env) =
            _authorize_logic ⟨i, a, l, v, s⟩ true := by
          unfold advance_transaction
          rw [if_pos hpos]
        rw [ha]
        exact ⟨rfl, by simp [handlerResult?, _authorize_logic],
          Or.inr (Or.inr ⟨h3, h5, Or.inl rfl⟩)⟩
      · have ha : advance_transaction ⟨i, a, l, v, s⟩ (successCount env) =
            _fraud_logic ⟨i, a, l, v, s⟩ true := by
          unfold advance_transaction
          rw [if_neg hpos]
        rw [ha]
        exact ⟨rfl, by simp [handlerResult?, _fraud_logic],
          Or.inr (Or.inr ⟨h3, h5, Or.inr rfl⟩)⟩

/-- Witness for C10 at a concrete mid-range score with both waiters
timing out. -/
theorem claim10_unknown_unreachable_witness :
    handlerStatus?
      (handler ⟨none, some 12, some 1200, some "Seattle", some "Online Gaming Store", some 3⟩
        ⟨true, .response (some 3), .timedOut, .timedOut⟩).1 = some 200 ∧
    handlerResult?
      (handler ⟨none, some 12, some 1200, some "Seattle", some "Online Gaming Store", some 3⟩
        ⟨true, .response (some 3), .timedOut, .timedOut⟩).1 ≠ some "Unknown" :=
  have h := claim10_unknown_unreachable
    ⟨none, some 12, some 1200, some "Seattle", some "Online Gaming Store", some 3⟩
    ⟨true, .response (some 3), .timedOut, .timedOut⟩
    12 1200 "Seattle" "Online Gaming Store" 3 false
    rfl rfl rfl rfl rfl rfl
  ⟨h.1, h.2.1⟩

/-- Counterexample to C5: a start request whose `amount` is present but
negative (not a positive number) does not fail before any step — the
handler runs the `fraudCheck` step and completes normally, and the agent
endpoint's validation also accepts the negative amount. -/
theorem claim5_counterexample :
    (handler ⟨none, some 1, some (-50), some "Portland", some "Coffee Shop", some 1⟩
        ⟨true, .response (some 1), .delivered "ok", .delivered "ok"⟩).1 =
      Except.ok (.result
        { statusCode := 200
          body := { transaction_id := 1, amount := -50, fraud_score := 1,
                    result := "authorized", customerVerificationResult := none } }) ∧
    TraceEvent.step "fraudCheck" ∈
      (handler ⟨none, some 1, some (-50), some "Portland", some "Coffee Shop", some 1⟩
        ⟨true, .response (some 1), .delivered "ok", .delivered "ok"⟩).2 ∧
    agentValidateAmount (some (-50)) = Except.ok () := by
  refine ⟨rfl, by decide, ?_⟩
  simp [agentValidateAmount]

/-- C5 as amended: a start request missing the `amount` field fails
before any step executes (uncaught `KeyError` in the Lambda; HTTP 400 at
the agent endpoint), and the agent endpoint also rejects a zero amount;
but a present negative amount is accepted — neither the handler nor the
agent validates positivity, only presence and (at the agent)
truthiness. -/
theorem claim5_missing_amount_fails_before_steps (ev : Event) (env : Env)
    (hcb : ev.callbackId = none) (ham : ev.amount = none) :
    (∃ msg, (handler ev env).1 = Except.error msg) ∧
    (handler ev env).2 = [] ∧
    agentValidateAmount none = Except.error 400 ∧
    agentValidateAmount (some 0) = Except.error 400 ∧
    agentValidateAmount (some (-50)) = Except.ok () := by
  have hag0 : agentValidateAmount (some 0) = Except.error 400 := by
    simp [agentValidateAmount]
  have hagn : agentValidateAmount (some (-50)) = Except.ok () := by
    simp [agentValidateAmount]
  unfold handler
  rw [hcb]
  simp only [Option.isSome_none, Bool.false_eq_true, if_false]
  cases hid : ev.id with
  | none => exact ⟨⟨"KeyError: id", rfl⟩, rfl, rfl, hag0, hagn⟩
  | some i =>
    rw [ham]
    exact ⟨⟨"KeyError: amount", rfl⟩, rfl, rfl, hag0, hagn⟩

/-- Witness for C5 (amended) at a concrete event lacking `amount`. -/
theorem claim5_missing_amount_fails_before_steps_witness :
    (handler ⟨none, some 1, none, some "Portland", some "Coffee Shop", none⟩
        ⟨true, .response (some 1), .delivered "ok", .delivered "ok"⟩).2 = [] ∧
    agentValidateAmount none = Except.error 400 :=
  have h := claim5_missing_amount_fails_before_steps
    ⟨none, some 1, none, some "Portland", some "Coffee Shop", none⟩
    ⟨true, .response (some 1), .delivered "ok", .delivered "ok"⟩
    rfl rfl
  ⟨h.2.1, h.2.2.1⟩

/-- Counterexample to C6: a scorer transport failure ("connection reset
by peer") makes the fraud-check step raise and propagate the failure,
not yield the fail-safe score 5. -/
theorem claim6_counterexample :
    (check_fraud_score 100 "Seattle" "Online Gaming Store" 0 true
        (.failure "connection reset by peer")).1 =
      Except.error "connection reset by peer" ∧
    (check_fraud_score 100 "Seattle" "Online Gaming Store" 0 true
        (.failure "connection reset by peer")).1 ≠ Except.ok 5 := by
  refine ⟨rfl, ?_⟩
  intro h
  simp [check_fraud_score] at h

/-- C6 as amended: only a successfully parsed scorer response lacking
`risk_score` yields the conservative fail-safe score 5; a scorer call
failure (transport error, timeout, or any raised exception) propagates
out of the fraud-check step instead of yielding 5, as does an unset
`AGENT_RUNTIME_ARN`. -/
theorem claim6_failsafe_only_for_malformed_response (a : Rat) (l v m : String)
    (sc : ScorerOutcome) :
    check_fraud_score a l v 0 true (.response none) = (Except.ok 5, true) ∧
    check_fraud_score a l v 0 true (.failure m) = (Except.error m, true) ∧
    check_fraud_score a l v 0 false sc =
      (Except.error "AGENT_RUNTIME_ARN environment variable is not set", false) := by
  refine ⟨?_, ?_, ?_⟩ <;> simp [check_fraud_score]

/-- Helper: a nonzero supplied score short-circuits the fraud-check
step — the score is returned directly and the agent is not invoked. -/
theorem check_fraud_score_short (a : Rat) (l v : String) (s : Int)
    (arnSet : Bool) (sc : ScorerOutcome) (hs : s ≠ 0) :
    check_fraud_score a l v s arnSet sc = (Except.ok s, false) := by
  unfold check_fraud_score
  rw [if_pos hs]

/-- Counterexample to C7: a transaction arriving with the nonzero score
2 does have a scoring step call made — the `fraudCheck` step executes
(the trace records it); the short-circuit happens inside the step, not
by skipping the step call. The run still succeeds although the scorer
is unreachable, showing the scorer itself was not consulted. -/
theorem claim7_counterexample :
    TraceEvent.step "fraudCheck" ∈
      (handler ⟨none, some 9, some 10, some "A", some "B", some 2⟩
        ⟨true, .failure "agent unreachable", .delivered "ok", .delivered "ok"⟩).2 ∧
    (handler ⟨none, some 9, some 10, some "A", some "B", some 2⟩
        ⟨true, .failure "agent unreachable", .delivered "ok", .delivered "ok"⟩).1 =
      Except.ok (.result
        { statusCode := 200
          body := { transaction_id := 9, amount := 10, fraud_score := 2,
                    result := "authorized", customerVerificationResult := none } }) := by
  exact ⟨by decide, rfl⟩

/-- C7 as amended: a transaction arriving with a nonzero score uses that
score directly and never invokes the external scorer — but the
`fraudCheck` step itself is still executed (it appears in the trace);
the short-circuit happens inside the step body. -/
theorem claim7_supplied_score_skips_scorer (ev : Event) (env : Env) (i : Int)
    (a : Rat) (l v : String) (s : Int)
    (hcb : ev.callbackId = none) (hid : ev.id = some i) (ham : ev.amount = some a)
    (hloc : ev.location = some l) (hven : ev.vendor = some v)
    (hsc : ev.score = some s) (hs : s ≠ 0) :
    check_fraud_score a l v s env.arnSet env.scorer = (Except.ok s, false) ∧
    TraceEvent.step "fraudCheck" ∈ (handler ev env).2 ∧
    TraceEvent.agentInvoke ∉ (handler ev env).2 := by
  have hshort := check_fraud_score_short a l v s env.arnSet env.scorer hs
  have hg : ev.score.getD 0 = s := by rw [hsc]; rfl
  have hchk : check_fraud_score a l v (ev.score.getD 0) env.arnSet env.scorer =
      (Except.ok s, false) := by rw [hg]; exact hshort
  refine ⟨hshort, ?_, ?_⟩ <;>
    [skip; skip] <;>
    · by_cases hlt : s < 3
      · rw [handler_low_eq ev env i a l v s false hcb hid ham hloc hven hchk hlt]
        simp [fraudCheckTrace]
      · by_cases hge : 5 ≤ s
        · rw [handler_high_eq ev env i a l v s false hcb hid ham hloc hven hchk hge]
          simp [fraudCheckTrace]
        · rw [handler_mid_eq ev env i a l v s false hcb hid ham hloc hven hchk
            (by omega) (by omega)]
          simp [fraudCheckTrace, verificationTrace]

/-- Witness for C7 (amended) at a concrete event carrying score 4. -/
theorem claim7_supplied_score_skips_scorer_witness :
    check_fraud_score 1200 "Seattle" "Online Gaming Store" 4
      true (.failure "agent unreachable") = (Except.ok 4, false) ∧
    TraceEvent.agentInvoke ∉
      (handler ⟨none, some 12, some 1200, some "Seattle", some "Online Gaming Store", some 4⟩
        ⟨true, .failure "agent unreachable", .delivered "ok", .timedOut⟩).2 :=
  have h := claim7_supplied_score_skips_scorer
    ⟨none, some 12, some 1200, some "Seattle", some "Online Gaming Store", some 4⟩
    ⟨true, .failure "agent unreachable", .delivered "ok", .timedOut⟩
    12 1200 "Seattle" "Online Gaming Store" 4
    rfl rfl rfl rfl rfl rfl (by decide)
  ⟨h.1, h.2.2⟩

/-- Counterexample to C8: a branch exception that is not a waiter
timeout but whose message happens to contain "timeout" ("Read timeout on
socket", e.g. a notification transport error) is not propagated — the
branch swallows it and reports the same channel-tagged timeout Failure
outcome, because timeout detection is string-matching on the message. -/
theorem claim8_counterexample :
    email_verification (.errored "Read timeout on socket") =
      Except.ok ⟨false, "email", none, some "timeout"⟩ ∧
    WaiterOutcome.errored "Read timeout on socket" ≠ WaiterOutcome.timedOut := by
  exact ⟨rfl, by decide⟩

/-- C8 as amended: a branch whose waiter times out yields a per-branch
Failure outcome tagged with its channel (a timeout signal, not an error
propagated to the parent), and a delivered callback yields a
channel-tagged Success; but propagation of other branch exceptions is
decided by string-matching — an exception is re-raised exactly when its
lowercased message does not contain "timeout", so a non-timeout
exception whose message contains "timeout" is also converted into the
timeout Failure outcome. -/
theorem claim8_timeout_is_tagged_failure (p m m2 : String)
    (hm : strContains (pyToLower m) "timeout" = false)
    (hm2 : strContains (pyToLower m2) "timeout" = true) :
    email_verification .timedOut = Except.ok ⟨false, "email", none, some "timeout"⟩ ∧
    sms_verification .timedOut = Except.ok ⟨false, "sms", none, some "timeout"⟩ ∧
    email_verification (.delivered p) = Except.ok ⟨true, "email", some p, none⟩ ∧
    sms_verification (.delivered p) = Except.ok ⟨true, "sms", some p, none⟩ ∧
    email_verification (.errored m) = Except.error m ∧
    sms_verification (.errored m) = Except.error m ∧
    email_verification (.errored m2) = Except.ok ⟨false, "email", none, some "timeout"⟩ ∧
    sms_verification (.errored m2) = Except.ok ⟨false, "sms", none, some "timeout"⟩ := by
  refine ⟨rfl, rfl, rfl, rfl, ?_, ?_, ?_, ?_⟩ <;>
    simp [email_verification, sms_verification, branch_verification,
      wait_for_callback, hm, hm2]

/-- Witness for C8 (amended) at concrete messages: "connection refused"
is propagated, "Gateway Timeout" is swallowed as a timeout. -/
theorem claim8_timeout_is_tagged_failure_witness :
    email_verification .timedOut = Except.ok ⟨false, "email", none, some "timeout"⟩ ∧
    email_verification (.errored "connection refused") =
      Except.error "connection refused" ∧
    sms_verification (.errored "Gateway Timeout") =
      Except.ok ⟨false, "sms", none, some "timeout"⟩ :=
  have h := claim8_timeout_is_tagged_failure "approved" "connection refused"
    "Gateway Timeout" (by decide) (by decide)
  ⟨h.1, h.2.2.2.2.1, h.2.2.2.2.2.2.2⟩

end FraudDetection
